import Mathlib

/-!
Verification of the settings-sanitization pipeline and the multipole matrix
provider of the nonAdiabaticCoupling repository.

The Python sources embedded here are
`nanoqm/workflows/input_validation.py` (class `InputSanitizer`) and
`nac/integrals/multipole_matrices.py`.  Configurations are shallowly embedded
as records whose fields are the keys the sanitizer reads or writes; a field of
type `Option t` is `none` when the corresponding dictionary key is absent.
External collaborators that live outside the excerpted sources (the geometry
reader, the valence-electron table from `templates.py`, path absolutization,
the HDF5 helpers from `nac.common`, and the commented-out integral routine)
are modelled as environment parameters or from the specification, as noted on
each definition.
-/

namespace NonAdiabaticCoupling

/-- Numeric cell data (the value of the `cell_parameters` key in the general
settings; the sanitizer copies it opaquely, so a list of rationals stands for
the numeric payload). -/
abbrev CellData := List Rat

/-- One CP2K job-specification tree (`cp2k_settings_main` or
`cp2k_settings_guess`).  Each field is a key the sanitizer reads or writes,
at its nested location in the real tree (for example `charge` stands for
`specific.cp2k.force_eval.dft.charge` and `print_mo_index_range` for
`specific.cp2k.force_eval.dft.print.mo.mo_index_range`).  An `Option` field is
`none` when the key is absent; `cell_parameters` and `cell_angles` use
`Option (Option CellData)` so that `some none` records a key explicitly set to
Python `None`.  The `xc` field is the `specific.cp2k.force_eval.dft.xc`
sub-mapping, consulted by `select_basis_file` via a key lookup. -/
structure CP2KSettings where
  executable : Option String := none
  basis : Option String := none
  potential : Option String := none
  potential_file_name : Option String := none
  basis_set_file_name : Option (List String) := none
  xc : List (String × String) := []
  cell_parameters : Option (Option CellData) := none
  cell_angles : Option (Option CellData) := none
  periodic : Option String := none
  charge : Option Int := none
  multiplicity : Option Int := none
  uks : Option String := none
  wfn_restart_file_name : Option String := none
  print_mo_index_range : Option String := none
  added_mos : Option Int := none
  mo_add_last : Option String := none
  mo_each_qs_scf : Option Int := none
  mo_eigenvalues : Option String := none
  mo_eigenvectors : Option String := none
  mo_ndigits : Option Int := none

/-- The `cp2k_general_settings` sub-mapping of a validated configuration:
shared scalars plus the two job-specification trees. -/
structure GeneralSettings where
  basis : String
  potential : String
  charge : Int
  multiplicity : Int
  periodic : String
  executable : String
  path_basis : Option String := none
  file_cell_parameters : Option String := none
  cell_parameters : Option CellData := none
  wfn_restart_file_name : Option String := none
  cp2k_settings_main : CP2KSettings := {}
  cp2k_settings_guess : CP2KSettings := {}

/-- A validated top-level configuration, restricted to the keys the sanitizer
touches.  `mo_index_range` is `none` when the key is absent (the schema layer
does not produce it; it is derived by `add_mo_index_range`). -/
structure UserInput where
  path_traj_xyz : String
  nHOMO : Option Int := none
  active_space : Int × Int := (10, 10)
  compute_orbitals : Bool := true
  mo_index_range : Option (Int × Int) := none
  cp2k_general_settings : GeneralSettings

/-- Shorthand for the `cp2k_general_settings` sub-mapping, mirroring the
`self.general` attribute of `InputSanitizer`. -/
def UserInput.general (u : UserInput) : GeneralSettings :=
  u.cp2k_general_settings

/-- External collaborators of the sanitizer.  `read_xyz` models
`scm.plams.Molecule(path, 'xyz')` restricted to the atom symbols (the only
data `compute_homo_index` uses); `cwd` makes `os.path.abspath` explicit.
`valence_electrons` is modelled from the spec: the table lives in
`nanoqm/workflows/templates.py`, which is not part of the excerpted sources;
the spec describes it as a lookup keyed on element-symbol plus basis-set name
returning an integer (with `C-DZVP-MOLOPT` giving 4 and `H-DZVP-MOLOPT`
giving 1). -/
structure Env where
  cwd : String
  read_xyz : String → List String
  valence_electrons : String → Int

/-- Model of `os.path.join` for the two-argument calls the sources make. -/
def os_path_join (a b : String) : String := a ++ "/" ++ b

/-- Model of `os.path.abspath` (and of `Path(...).absolute().as_posix()`):
a path is returned unchanged when already absolute (leading slash) and is
resolved against the working directory otherwise. -/
def os_path_abspath (env : Env) (p : String) : String :=
  if p.data.head? = some '/' then p else os_path_join env.cwd p

/-- Apply a function to the `cp2k_settings_main` tree, leaving every other
part of the configuration unchanged. -/
def updateMain (f : CP2KSettings → CP2KSettings) (u : UserInput) : UserInput :=
  { u with cp2k_general_settings :=
      { u.cp2k_general_settings with
          cp2k_settings_main := f u.cp2k_general_settings.cp2k_settings_main } }

/-- Apply a function to the `cp2k_settings_guess` tree, leaving every other
part of the configuration unchanged. -/
def updateGuess (f : CP2KSettings → CP2KSettings) (u : UserInput) : UserInput :=
  { u with cp2k_general_settings :=
      { u.cp2k_general_settings with
          cp2k_settings_guess := f u.cp2k_general_settings.cp2k_settings_guess } }

/-- Apply the same function to both job-specification trees, mirroring the
`for s in (self.general[p] for p in [...])` loops of the source. -/
def updateBoth (f : CP2KSettings → CP2KSettings) (u : UserInput) : UserInput :=
  updateMain f (updateGuess f u)

/-- Electron count of `compute_homo_index` (input_validation.py lines
164-172): the per-atom valence-electron lookup keyed by
`'-'.join((at.symbol, basis))`, summed over the atoms of the geometry file,
minus the total charge. -/
def electron_count (env : Env) (u : UserInput) : Int :=
  ((env.read_xyz u.path_traj_xyz).map
      (fun a => env.valence_electrons (a ++ "-" ++ u.general.basis))).sum
    - u.general.charge

/-- The warning message issued for an odd electron count
(input_validation.py line 176). -/
def unpaired_warning : String :=
  "Unpair number of electrons detected when computing the HOMO"

/-- Model of `InputSanitizer.compute_homo_index` (lines 162-178).  The result
pairs the returned index `N // 2 + N % 2` with the list of warnings emitted
(the Python `warnings.warn` call is non-fatal, so the function always
returns).  Lean `Int` division and remainder by the positive literal 2 agree
with Python floor division and modulo. -/
def compute_homo_index (env : Env) (u : UserInput) : Int × List String :=
  let number_of_electrons := electron_count env u
  let ws := if number_of_electrons % 2 ≠ 0 then [unpaired_warning] else []
  (number_of_electrons / 2 + number_of_electrons % 2, ws)

/-- Model of `InputSanitizer.add_mo_index_range` (lines 255-277).  The source
reads `self.user_input["nHOMO"]`, which the pipeline has always populated by
this point (a missing key would raise `KeyError`; the `none` branch is
unreachable from `sanitize` and returns the input unchanged). -/
def add_mo_index_range (u : UserInput) : UserInput :=
  match u.nHOMO with
  | none => u
  | some nHOMO =>
    let active_space := u.active_space
    let lo := nHOMO - active_space.1
    let hi := nHOMO + active_space.2
    let u1 := { u with mo_index_range := some (lo, hi) }
    updateMain (fun s =>
      { s with
          print_mo_index_range := some (toString (lo + 1) ++ " " ++ toString hi)
          added_mos := some (hi - nHOMO)
          mo_add_last := some "numeric"
          mo_each_qs_scf := some 0
          mo_eigenvalues := some ""
          mo_eigenvectors := some ""
          mo_ndigits := some 36 }) u1

/-- Model of `InputSanitizer.add_restart_point` (lines 247-253): the guard is
the Python truthiness test `wfn is not None and wfn`, and only the guess
specification is updated. -/
def add_restart_point (env : Env) (u : UserInput) : UserInput :=
  match u.general.wfn_restart_file_name with
  | none => u
  | some wfn =>
    if wfn ≠ "" then
      updateGuess (fun s =>
        { s with wfn_restart_file_name := some (os_path_abspath env wfn) }) u
    else u

/-- Model of `InputSanitizer.select_basis_file` (lines 196-208): the basis
file list always starts with `BASIS_MOLOPT`, and the two ADMM files are
appended exactly when the key `"xc_functional pbe"` is absent from the
`dft.xc` sub-mapping. -/
def select_basis_file (env : Env) (path_basis : String) (s : CP2KSettings) :
    CP2KSettings :=
  let base := [os_path_abspath env (os_path_join path_basis "BASIS_MOLOPT")]
  let files :=
    if (s.xc.lookup "xc_functional pbe") = none then
      base ++ [os_path_abspath env (os_path_join path_basis "BASIS_ADMM_MOLOPT"),
               os_path_abspath env (os_path_join path_basis "BASIS_ADMM")]
    else base
  { s with basis_set_file_name := some files }

/-- Model of `InputSanitizer.add_basis` (lines 180-194): when a basis
directory was supplied, both specifications receive the basis and potential
names, the absolute `GTH_POTENTIALS` path, and the basis-file list chosen by
`select_basis_file`. -/
def add_basis (env : Env) (u : UserInput) : UserInput :=
  match u.general.path_basis with
  | none => u
  | some pb =>
    updateBoth (fun s =>
      select_basis_file env pb
        { s with
            basis := some u.general.basis
            potential := some u.general.potential
            potential_file_name :=
              some (os_path_abspath env (os_path_join pb "GTH_POTENTIALS")) }) u

/-- Model of `InputSanitizer.add_cell_parameters` (lines 210-221), including
the redundant unconditional clearing of `cell_angles` after the conditional
branch (so the angles always end up assigned Python `None`). -/
def add_cell_parameters (u : UserInput) : UserInput :=
  updateBoth (fun s =>
    let s1 :=
      if u.general.file_cell_parameters = none then
        { s with cell_parameters := some u.general.cell_parameters
                 cell_angles := some none }
      else
        { s with cell_parameters := some none }
    { s1 with cell_angles := some none }) u

/-- Model of `InputSanitizer.add_periodic` (lines 223-229). -/
def add_periodic (u : UserInput) : UserInput :=
  updateBoth (fun s => { s with periodic := some u.general.periodic }) u

/-- Model of `InputSanitizer.add_charge` (lines 231-237). -/
def add_charge (u : UserInput) : UserInput :=
  updateBoth (fun s => { s with charge := some u.general.charge }) u

/-- Model of `InputSanitizer.add_multiplicity` (lines 239-245): the
multiplicity keyword and the `uks` flag are written to both specifications
only when the multiplicity exceeds 1. -/
def add_multiplicity (u : UserInput) : UserInput :=
  if u.general.multiplicity > 1 then
    updateBoth (fun s =>
      { s with multiplicity := some u.general.multiplicity
               uks := some "" }) u
  else u

/-- Model of `InputSanitizer.add_executable` (lines 127-130). -/
def add_executable (u : UserInput) : UserInput :=
  updateBoth (fun s => { s with executable := some u.general.executable }) u

/-- Model of `InputSanitizer.add_missing_keywords` (lines 132-160): derive
`nHOMO` when absent, derive the MO index range when orbitals were requested,
then run the restart, basis, cell, periodicity, charge and multiplicity
steps in source order.  The second component collects the warnings emitted
by `compute_homo_index`. -/
def add_missing_keywords (env : Env) (u : UserInput) : UserInput × List String :=
  let step :=
    if u.nHOMO = none then
      let hw := compute_homo_index env u
      ({ u with nHOMO := some hw.1 }, hw.2)
    else (u, [])
  let u1 := step.1
  let u2 := if u1.compute_orbitals then add_mo_index_range u1 else u1
  let u3 := add_restart_point env u2
  let u4 := add_basis env u3
  let u5 := add_cell_parameters u4
  let u6 := add_periodic u5
  let u7 := add_charge u6
  (add_multiplicity u7, step.2)

/-- Model of `InputSanitizer.sanitize` (lines 97-105) from the state entering
`add_missing_keywords`.  The earlier `create_settings` step only wraps the
raw dictionaries into `Settings` trees (the typed records here) and
`apply_templates` resolves templates from `templates.py`, outside the
excerpted sources; the theorems below quantify over every configuration
reaching this point, which covers all post-template states.  The trailing
`print_final_input` only serializes the result to an audit file and does not
modify it. -/
def sanitize (env : Env) (u : UserInput) : UserInput × List String :=
  let r := add_missing_keywords env u
  (add_executable r.1, r.2)

/-- The `nHOMO` value in force after the first sanitization step: the
user-supplied value when present, the derived index otherwise. -/
def derived_nHOMO (env : Env) (u : UserInput) : Int :=
  match u.nHOMO with
  | some n => n
  | none => (compute_homo_index env u).1

/-! ## The multipole matrix provider (`nac/integrals/multipole_matrices.py`) -/

/-- A numeric matrix as stored in the keyed array store. -/
abbrev NacMatrix := List (List Rat)

/-- A molecular geometry: atom symbols with coordinates (passed through
opaquely to the external integral routine). -/
abbrev Mol := List (String × Rat × Rat × Rat)

/-- Content of one HDF5 file as a keyed array store: a list of
(dataset path, matrix) bindings, newest first. -/
abbrev Store := List (String × NacMatrix)

/-- The part of the configuration dictionary `get_multipole_matrix` reads. -/
structure MultipoleConfig where
  project_name : String
  path_hdf5 : String

/-- Modelled from the spec: `search_data_in_hdf5` lives in `nac.common`,
outside the excerpted sources; the spec describes the store as a persistent
keyed array store, so membership is a key lookup. -/
def search_data_in_hdf5 (store : Store) (path : String) : Bool :=
  (store.lookup path).isSome

/-- Modelled from the spec: `retrieve_hdf5_data` lives in `nac.common`;
it returns the array stored under the key (callers only invoke it after a
successful membership test). -/
def retrieve_hdf5_data (store : Store) (path : String) : NacMatrix :=
  (store.lookup path).getD []

/-- Modelled from the spec: `store_arrays_in_hdf5` lives in `nac.common`;
it persists the array under the key, overwriting any previous binding
(lookup sees the newest binding first). -/
def store_arrays_in_hdf5 (store : Store) (path : String) (m : NacMatrix) :
    Store :=
  (path, m) :: store

/-- Model of `search_multipole_in_hdf5` (multipole_matrices.py lines 25-34):
retrieve the stored matrix when the key is present, `none` (Python `None`)
otherwise. -/
def search_multipole_in_hdf5 (store : Store) (path_multipole_hdf5 : String) :
    Option NacMatrix :=
  if search_data_in_hdf5 store path_multipole_hdf5 then
    some (retrieve_hdf5_data store path_multipole_hdf5)
  else none

/-- Modelled from the spec: the body of `compute_matrix_multipole`
(multipole_matrices.py lines 37-70) is commented out in the source and the
spec treats the integral evaluation as an external collaborator, so the
routine is an environment parameter producing the multipole matrix. -/
structure IntegralEnv where
  compute_matrix_multipole : Mol → MultipoleConfig → String → NacMatrix

/-- The storage key built by `get_multipole_matrix` (lines 12-14):
`join(project_name, 'multipole', 'point_{i}', multipole)`. -/
def multipole_path (config : MultipoleConfig) (i : Nat) (multipole : String) :
    String :=
  os_path_join
    (os_path_join (os_path_join config.project_name "multipole")
      ("point_" ++ toString i))
    multipole

/-- Model of `get_multipole_matrix` (multipole_matrices.py lines 8-22):
search the store under the key; on a miss invoke the integral routine; store
the resulting matrix unconditionally; return it.  The third component is an
instrumentation flag recording whether the integral routine was invoked. -/
def get_multipole_matrix (env : IntegralEnv) (i : Nat) (mol : Mol)
    (store : Store) (config : MultipoleConfig) (multipole : String) :
    NacMatrix × Store × Bool :=
  let path_multipole_hdf5 := multipole_path config i multipole
  match search_multipole_in_hdf5 store path_multipole_hdf5 with
  | some m => (m, store_arrays_in_hdf5 store path_multipole_hdf5 m, false)
  | none =>
      let m := env.compute_matrix_multipole mol config multipole
      (m, store_arrays_in_hdf5 store path_multipole_hdf5 m, true)

/-! ## Derived value functions and concrete configurations -/

/-- Value written by `add_restart_point` into the guess tree: the absolutized
restart path when the truthiness guard holds, the previous field value
otherwise. -/
def restart_value (env : Env) (u : UserInput) (old : Option String) :
    Option String :=
  match u.cp2k_general_settings.wfn_restart_file_name with
  | none => old
  | some wfn => if wfn ≠ "" then some (os_path_abspath env wfn) else old

/-- The basis-file list chosen by `select_basis_file` as a function of the
basis directory and the `xc` sub-mapping. -/
def basis_files (env : Env) (path_basis : String)
    (xc : List (String × String)) : List String :=
  if (xc.lookup "xc_functional pbe") = none then
    [os_path_abspath env (os_path_join path_basis "BASIS_MOLOPT"),
     os_path_abspath env (os_path_join path_basis "BASIS_ADMM_MOLOPT"),
     os_path_abspath env (os_path_join path_basis "BASIS_ADMM")]
  else [os_path_abspath env (os_path_join path_basis "BASIS_MOLOPT")]

/-- Value written by `add_cell_parameters` into the `cell_parameters` field of
both trees: the general cell parameters when no external file was supplied,
Python `None` otherwise. -/
def cell_par_value (u : UserInput) : Option (Option CellData) :=
  if u.cp2k_general_settings.file_cell_parameters = none then
    some u.cp2k_general_settings.cell_parameters
  else some none

/-- Value written by `add_multiplicity` into the `multiplicity` field: the
general multiplicity when it exceeds 1, the previous field value otherwise. -/
def mult_value (u : UserInput) (old : Option Int) : Option Int :=
  if u.cp2k_general_settings.multiplicity > 1 then
    some u.cp2k_general_settings.multiplicity
  else old

/-- Value written by `add_multiplicity` into the `uks` field. -/
def uks_value (u : UserInput) (old : Option String) : Option String :=
  if u.cp2k_general_settings.multiplicity > 1 then some "" else old

/-- Environment for the methane scenario of the spec: the geometry file reads
as one carbon and four hydrogens, and the valence-electron table (modelled
from the spec) assigns 4 to `C-DZVP-MOLOPT` and 1 to `H-DZVP-MOLOPT`. -/
def ch4Env : Env where
  cwd := "/work"
  read_xyz := fun _ => ["C", "H", "H", "H", "H"]
  valence_electrons := fun s =>
    if s = "C-DZVP-MOLOPT" then 4 else if s = "H-DZVP-MOLOPT" then 1 else 0

/-- General settings for the methane scenario: basis DZVP-MOLOPT and total
charge 0. -/
def ch4General : GeneralSettings where
  basis := "DZVP-MOLOPT"
  potential := "GTH-PBE"
  charge := 0
  multiplicity := 1
  periodic := "xyz"
  executable := "cp2k.popt"

/-- Validated configuration for the methane scenario, with `nHOMO` absent. -/
def ch4Input : UserInput where
  path_traj_xyz := "ch4.xyz"
  cp2k_general_settings := ch4General

/-- The methane cation scenario: charge 1 gives the odd electron count 7. -/
def ch4CationInput : UserInput where
  path_traj_xyz := "ch4.xyz"
  cp2k_general_settings := { ch4General with charge := 1 }

/-- Configuration with an explicit `nHOMO`, a small active space, a supplied
cell-parameters file, a basis directory and a multiplicity of 3, used by the
witnesses of the MO-range, cell, basis and multiplicity claims. -/
def richInput : UserInput where
  path_traj_xyz := "ch4.xyz"
  nHOMO := some 4
  active_space := (1, 2)
  cp2k_general_settings :=
    { ch4General with
        multiplicity := 3
        path_basis := some "/data/basis"
        file_cell_parameters := some "cell.txt" }

/-! ## Helper lemmas

Projection lemmas for `updateMain` and `updateGuess`, and branch-free normal
forms for the sanitization stages.  They let the claim proofs evaluate a
single field of the final configuration without materializing the whole
nested record. -/

@[simp] theorem general_eq (u : UserInput) :
    u.general = u.cp2k_general_settings := rfl

@[simp] theorem updateMain_path_traj_xyz (f : CP2KSettings → CP2KSettings)
    (u : UserInput) : (updateMain f u).path_traj_xyz = u.path_traj_xyz := rfl

@[simp] theorem updateMain_nHOMO (f : CP2KSettings → CP2KSettings)
    (u : UserInput) : (updateMain f u).nHOMO = u.nHOMO := rfl

@[simp] theorem updateMain_active_space (f : CP2KSettings → CP2KSettings)
    (u : UserInput) : (updateMain f u).active_space = u.active_space := rfl

@[simp] theorem updateMain_compute_orbitals (f : CP2KSettings → CP2KSettings)
    (u : UserInput) :
    (updateMain f u).compute_orbitals = u.compute_orbitals := rfl

@[simp] theorem updateMain_mo_index_range (f : CP2KSettings → CP2KSettings)
    (u : UserInput) : (updateMain f u).mo_index_range = u.mo_index_range := rfl

@[simp] theorem updateMain_general_basis (f : CP2KSettings → CP2KSettings)
    (u : UserInput) :
    (updateMain f u).cp2k_general_settings.basis
      = u.cp2k_general_settings.basis := rfl

@[simp] theorem updateMain_general_potential (f : CP2KSettings → CP2KSettings)
    (u : UserInput) :
    (updateMain f u).cp2k_general_settings.potential
      = u.cp2k_general_settings.potential := rfl

@[simp] theorem updateMain_general_charge (f : CP2KSettings → CP2KSettings)
    (u : UserInput) :
    (updateMain f u).cp2k_general_settings.charge
      = u.cp2k_general_settings.charge := rfl

@[simp] theorem updateMain_general_multiplicity
    (f : CP2KSettings → CP2KSettings) (u : UserInput) :
    (updateMain f u).cp2k_general_settings.multiplicity
      = u.cp2k_general_settings.multiplicity := rfl

@[simp] theorem updateMain_general_periodic (f : CP2KSettings → CP2KSettings)
    (u : UserInput) :
    (updateMain f u).cp2k_general_settings.periodic
      = u.cp2k_general_settings.periodic := rfl

@[simp] theorem updateMain_general_executable (f : CP2KSettings → CP2KSettings)
    (u : UserInput) :
    (updateMain f u).cp2k_general_settings.executable
      = u.cp2k_general_settings.executable := rfl

@[simp] theorem updateMain_general_path_basis (f : CP2KSettings → CP2KSettings)
    (u : UserInput) :
    (updateMain f u).cp2k_general_settings.path_basis
      = u.cp2k_general_settings.path_basis := rfl

@[simp] theorem updateMain_general_file_cell_parameters
    (f : CP2KSettings → CP2KSettings) (u : UserInput) :
    (updateMain f u).cp2k_general_settings.file_cell_parameters
      = u.cp2k_general_settings.file_cell_parameters := rfl

@[simp] theorem updateMain_general_cell_parameters
    (f : CP2KSettings → CP2KSettings) (u : UserInput) :
    (updateMain f u).cp2k_general_settings.cell_parameters
      = u.cp2k_general_settings.cell_parameters := rfl

@[simp] theorem updateMain_general_wfn (f : CP2KSettings → CP2KSettings)
    (u : UserInput) :
    (updateMain f u).cp2k_general_settings.wfn_restart_file_name
      = u.cp2k_general_settings.wfn_restart_file_name := rfl

@[simp] theorem updateMain_main (f : CP2KSettings → CP2KSettings)
    (u : UserInput) :
    (updateMain f u).cp2k_general_settings.cp2k_settings_main
      = f u.cp2k_general_settings.cp2k_settings_main := rfl

@[simp] theorem updateMain_guess (f : CP2KSettings → CP2KSettings)
    (u : UserInput) :
    (updateMain f u).cp2k_general_settings.cp2k_settings_guess
      = u.cp2k_general_settings.cp2k_settings_guess := rfl

@[simp] theorem updateGuess_path_traj_xyz (f : CP2KSettings → CP2KSettings)
    (u : UserInput) : (updateGuess f u).path_traj_xyz = u.path_traj_xyz := rfl

@[simp] theorem updateGuess_nHOMO (f : CP2KSettings → CP2KSettings)
    (u : UserInput) : (updateGuess f u).nHOMO = u.nHOMO := rfl

@[simp] theorem updateGuess_active_space (f : CP2KSettings → CP2KSettings)
    (u : UserInput) : (updateGuess f u).active_space = u.active_space := rfl

@[simp] theorem updateGuess_compute_orbitals (f : CP2KSettings → CP2KSettings)
    (u : UserInput) :
    (updateGuess f u).compute_orbitals = u.compute_orbitals := rfl

@[simp] theorem updateGuess_mo_index_range (f : CP2KSettings → CP2KSettings)
    (u : UserInput) :
    (updateGuess f u).mo_index_range = u.mo_index_range := rfl

@[simp] theorem updateGuess_general_basis (f : CP2KSettings → CP2KSettings)
    (u : UserInput) :
    (updateGuess f u).cp2k_general_settings.basis
      = u.cp2k_general_settings.basis := rfl

@[simp] theorem updateGuess_general_potential (f : CP2KSettings → CP2KSettings)
    (u : UserInput) :
    (updateGuess f u).cp2k_general_settings.potential
      = u.cp2k_general_settings.potential := rfl

@[simp] theorem updateGuess_general_charge (f : CP2KSettings → CP2KSettings)
    (u : UserInput) :
    (updateGuess f u).cp2k_general_settings.charge
      = u.cp2k_general_settings.charge := rfl

@[simp] theorem updateGuess_general_multiplicity
    (f : CP2KSettings → CP2KSettings) (u : UserInput) :
    (updateGuess f u).cp2k_general_settings.multiplicity
      = u.cp2k_general_settings.multiplicity := rfl

@[simp] theorem updateGuess_general_periodic (f : CP2KSettings → CP2KSettings)
    (u : UserInput) :
    (updateGuess f u).cp2k_general_settings.periodic
      = u.cp2k_general_settings.periodic := rfl

@[simp] theorem updateGuess_general_executable
    (f : CP2KSettings → CP2KSettings) (u : UserInput) :
    (updateGuess f u).cp2k_general_settings.executable
      = u.cp2k_general_settings.executable := rfl

@[simp] theorem updateGuess_general_path_basis
    (f : CP2KSettings → CP2KSettings) (u : UserInput) :
    (updateGuess f u).cp2k_general_settings.path_basis
      = u.cp2k_general_settings.path_basis := rfl

@[simp] theorem updateGuess_general_file_cell_parameters
    (f : CP2KSettings → CP2KSettings) (u : UserInput) :
    (updateGuess f u).cp2k_general_settings.file_cell_parameters
      = u.cp2k_general_settings.file_cell_parameters := rfl

@[simp] theorem updateGuess_general_cell_parameters
    (f : CP2KSettings → CP2KSettings) (u : UserInput) :
    (updateGuess f u).cp2k_general_settings.cell_parameters
      = u.cp2k_general_settings.cell_parameters := rfl

@[simp] theorem updateGuess_general_wfn (f : CP2KSettings → CP2KSettings)
    (u : UserInput) :
    (updateGuess f u).cp2k_general_settings.wfn_restart_file_name
      = u.cp2k_general_settings.wfn_restart_file_name := rfl

@[simp] theorem updateGuess_main (f : CP2KSettings → CP2KSettings)
    (u : UserInput) :
    (updateGuess f u).cp2k_general_settings.cp2k_settings_main
      = u.cp2k_general_settings.cp2k_settings_main := rfl

@[simp] theorem updateGuess_guess (f : CP2KSettings → CP2KSettings)
    (u : UserInput) :
    (updateGuess f u).cp2k_general_settings.cp2k_settings_guess
      = f u.cp2k_general_settings.cp2k_settings_guess := rfl

@[simp] theorem updateBoth_eq (f : CP2KSettings → CP2KSettings)
    (u : UserInput) : updateBoth f u = updateMain f (updateGuess f u) := rfl

@[simp] theorem add_restart_point_eq (env : Env) (u : UserInput) :
    add_restart_point env u
      = updateGuess (fun s =>
          { s with wfn_restart_file_name :=
              restart_value env u s.wfn_restart_file_name }) u := by
  obtain ⟨pt, nh, asp, co, mo, g⟩ := u
  obtain ⟨b, p, c, m, pe, ex, pb, fc, cp, wf, sm, sg⟩ := g
  cases wf with
  | none => rfl
  | some wfn =>
      by_cases hw : wfn ≠ "" <;>
        simp [add_restart_point, restart_value, updateGuess, hw]

@[simp] theorem add_basis_eq (env : Env) (u : UserInput) :
    add_basis env u
      = updateBoth (fun s =>
          { s with
              basis :=
                match u.cp2k_general_settings.path_basis with
                | none => s.basis
                | some _ => some u.cp2k_general_settings.basis
              potential :=
                match u.cp2k_general_settings.path_basis with
                | none => s.potential
                | some _ => some u.cp2k_general_settings.potential
              potential_file_name :=
                match u.cp2k_general_settings.path_basis with
                | none => s.potential_file_name
                | some pb =>
                    some (os_path_abspath env (os_path_join pb "GTH_POTENTIALS"))
              basis_set_file_name :=
                match u.cp2k_general_settings.path_basis with
                | none => s.basis_set_file_name
                | some pb => some (basis_files env pb s.xc) }) u := by
  obtain ⟨pt, nh, asp, co, mo, g⟩ := u
  obtain ⟨b, p, c, m, pe, ex, pb, fc, cp, wf, sm, sg⟩ := g
  cases pb with
  | none => rfl
  | some pbv =>
      by_cases hx1 : (sm.xc.lookup "xc_functional pbe") = none <;>
      by_cases hx2 : (sg.xc.lookup "xc_functional pbe") = none <;>
      simp [add_basis, select_basis_file, basis_files, updateBoth, updateMain,
        updateGuess, hx1, hx2]

@[simp] theorem add_cell_parameters_eq (u : UserInput) :
    add_cell_parameters u
      = updateBoth (fun s =>
          { s with cell_parameters := cell_par_value u
                   cell_angles := some none }) u := by
  obtain ⟨pt, nh, asp, co, mo, g⟩ := u
  obtain ⟨b, p, c, m, pe, ex, pb, fc, cp, wf, sm, sg⟩ := g
  by_cases h : fc = (none : Option String) <;>
    simp [add_cell_parameters, cell_par_value, updateBoth, updateMain,
      updateGuess, h]

@[simp] theorem add_multiplicity_eq (u : UserInput) :
    add_multiplicity u
      = updateBoth (fun s =>
          { s with multiplicity := mult_value u s.multiplicity
                   uks := uks_value u s.uks }) u := by
  obtain ⟨pt, nh, asp, co, mo, g⟩ := u
  obtain ⟨b, p, c, m, pe, ex, pb, fc, cp, wf, sm, sg⟩ := g
  by_cases h : m > 1 <;>
    simp [add_multiplicity, mult_value, uks_value, updateBoth, updateMain,
      updateGuess, h]

/-- Rounding identity connecting the ceiling of `N / 2` over the rationals
with the integer expression `N / 2 + N % 2` returned by
`compute_homo_index`. -/
theorem ceil_half_eq (N : Int) : ⌈(N : ℚ) / 2⌉ = N / 2 + N % 2 := by
  rw [Int.ceil_eq_iff]
  have h1 : N ≤ 2 * (N / 2 + N % 2) := by omega
  have h2 : 2 * (N / 2 + N % 2) - 2 < N := by omega
  have h1q : (N : ℚ) ≤ ((2 * (N / 2 + N % 2) : Int) : ℚ) := by exact_mod_cast h1
  have h2q : ((2 * (N / 2 + N % 2) - 2 : Int) : ℚ) < (N : ℚ) := by
    exact_mod_cast h2
  constructor
  · rw [lt_div_iff₀ (by norm_num : (0:ℚ) < 2)]
    push_cast at h2q ⊢
    linarith
  · rw [div_le_iff₀ (by norm_num : (0:ℚ) < 2)]
    push_cast at h1q ⊢
    linarith

/-! ## Sanitizer claims -/

/-- C1: for every configuration lacking an explicit `nHOMO`, sanitization
sets `nHOMO` to the ceiling of half the electron count, where the electron
count is the sum over the atoms of the valence-electron lookup keyed by
element symbol plus basis name, minus the total charge. -/
theorem sanitize_nHOMO_ceil (env : Env) (u : UserInput) (h : u.nHOMO = none) :
    (sanitize env u).1.nHOMO = some ⌈(electron_count env u : ℚ) / 2⌉ := by
  cases hc : u.compute_orbitals <;>
    simp [sanitize, add_missing_keywords, add_executable, add_periodic,
      add_charge, add_mo_index_range, compute_homo_index, h, hc, ceil_half_eq]

/-- C1 witness: methane with basis DZVP-MOLOPT and charge 0 (valence counts
4, 1, 1, 1, 1) has electron count 8 and derived `nHOMO` 4. -/
theorem sanitize_nHOMO_ceil_witness :
    electron_count ch4Env ch4Input = 8 ∧
    (sanitize ch4Env ch4Input).1.nHOMO = some 4 := by
  have h := sanitize_nHOMO_ceil ch4Env ch4Input rfl
  have e : electron_count ch4Env ch4Input = 8 := rfl
  rw [e, ceil_half_eq] at h
  exact ⟨e, h.trans (by decide)⟩

/-- C2: with `compute_orbitals` requested, sanitization sets
`mo_index_range` to `(nHOMO - below, nHOMO + above)`, prints the MO index
range in the main job specification with lower bound `mo_index_range.1 + 1`
and upper bound `mo_index_range.2`, and sets `added_mos` to
`mo_index_range.2 - nHOMO`. -/
theorem sanitize_mo_range (env : Env) (u : UserInput)
    (h : u.compute_orbitals = true) :
    (sanitize env u).1.mo_index_range
      = some (derived_nHOMO env u - u.active_space.1,
              derived_nHOMO env u + u.active_space.2) ∧
    (sanitize env u).1.cp2k_general_settings.cp2k_settings_main.print_mo_index_range
      = some (toString (derived_nHOMO env u - u.active_space.1 + 1) ++ " "
          ++ toString (derived_nHOMO env u + u.active_space.2)) ∧
    (sanitize env u).1.cp2k_general_settings.cp2k_settings_main.added_mos
      = some (derived_nHOMO env u + u.active_space.2 - derived_nHOMO env u) := by
  cases hn : u.nHOMO <;>
    simp [sanitize, add_missing_keywords, add_executable, add_periodic,
      add_charge, add_mo_index_range, derived_nHOMO, h, hn]

/-- C2 witness: explicit `nHOMO = 4` and active space `(1, 2)` give the
range `(3, 6)`, the printed bounds `"4 6"` and 2 added orbitals. -/
theorem sanitize_mo_range_witness :
    (sanitize ch4Env richInput).1.mo_index_range = some (3, 6) ∧
    (sanitize ch4Env richInput).1.cp2k_general_settings.cp2k_settings_main.print_mo_index_range
      = some "4 6" ∧
    (sanitize ch4Env richInput).1.cp2k_general_settings.cp2k_settings_main.added_mos
      = some 2 := by
  have h := sanitize_mo_range ch4Env richInput rfl
  exact ⟨h.1.trans (by decide), h.2.1.trans (by decide),
    h.2.2.trans (by decide)⟩

/-- C4: starting from a validated configuration (which carries no
`mo_index_range` key), the sanitized configuration has the key present if
and only if orbital computation was requested. -/
theorem sanitize_mo_presence (env : Env) (u : UserInput)
    (h : u.mo_index_range = none) :
    ((sanitize env u).1.mo_index_range).isSome = true
      ↔ u.compute_orbitals = true := by
  cases hn : u.nHOMO <;> cases hc : u.compute_orbitals <;>
    simp [sanitize, add_missing_keywords, add_executable, add_periodic,
      add_charge, add_mo_index_range, h, hn, hc]

/-- C4 witness: the methane configuration requests orbitals, so the
sanitized configuration carries a `mo_index_range`. -/
theorem sanitize_mo_presence_witness :
    ((sanitize ch4Env ch4Input).1.mo_index_range).isSome = true :=
  (sanitize_mo_presence ch4Env ch4Input rfl).mpr rfl

/-- C5: the main and guess job specifications receive the periodicity and
charge scalars unconditionally and identically, and carry the multiplicity
keyword together with the unrestricted-spin flag exactly when the
multiplicity exceeds 1 (both absent otherwise, provided the validated input
did not already carry them). -/
theorem sanitize_shared_physical (env : Env) (u : UserInput)
    (h1 : u.cp2k_general_settings.cp2k_settings_main.multiplicity = none)
    (h2 : u.cp2k_general_settings.cp2k_settings_main.uks = none)
    (h3 : u.cp2k_general_settings.cp2k_settings_guess.multiplicity = none)
    (h4 : u.cp2k_general_settings.cp2k_settings_guess.uks = none) :
    ((sanitize env u).1.cp2k_general_settings.cp2k_settings_main.periodic
        = some u.cp2k_general_settings.periodic ∧
      (sanitize env u).1.cp2k_general_settings.cp2k_settings_guess.periodic
        = some u.cp2k_general_settings.periodic) ∧
    ((sanitize env u).1.cp2k_general_settings.cp2k_settings_main.charge
        = some u.cp2k_general_settings.charge ∧
      (sanitize env u).1.cp2k_general_settings.cp2k_settings_guess.charge
        = some u.cp2k_general_settings.charge) ∧
    (u.cp2k_general_settings.multiplicity > 1 →
      (sanitize env u).1.cp2k_general_settings.cp2k_settings_main.multiplicity
          = some u.cp2k_general_settings.multiplicity ∧
      (sanitize env u).1.cp2k_general_settings.cp2k_settings_guess.multiplicity
          = some u.cp2k_general_settings.multiplicity ∧
      (sanitize env u).1.cp2k_general_settings.cp2k_settings_main.uks
          = some "" ∧
      (sanitize env u).1.cp2k_general_settings.cp2k_settings_guess.uks
          = some "") ∧
    (¬ u.cp2k_general_settings.multiplicity > 1 →
      (sanitize env u).1.cp2k_general_settings.cp2k_settings_main.multiplicity
          = none ∧
      (sanitize env u).1.cp2k_general_settings.cp2k_settings_guess.multiplicity
          = none ∧
      (sanitize env u).1.cp2k_general_settings.cp2k_settings_main.uks
          = none ∧
      (sanitize env u).1.cp2k_general_settings.cp2k_settings_guess.uks
          = none) := by
  cases hn : u.nHOMO <;> cases hc : u.compute_orbitals <;>
    by_cases hm : u.cp2k_general_settings.multiplicity > 1 <;>
    simp [sanitize, add_missing_keywords, add_executable, add_periodic,
      add_charge, add_mo_index_range, mult_value, uks_value,
      h1, h2, h3, h4, hn, hc, hm]

/-- C5 witness: a configuration with multiplicity 3 ends with periodicity
and charge copied identically into both specifications and the multiplicity
and spin keywords present on both. -/
theorem sanitize_shared_physical_witness :
    (sanitize ch4Env richInput).1.cp2k_general_settings.cp2k_settings_main.periodic
        = some "xyz" ∧
    (sanitize ch4Env richInput).1.cp2k_general_settings.cp2k_settings_guess.periodic
        = some "xyz" ∧
    (sanitize ch4Env richInput).1.cp2k_general_settings.cp2k_settings_main.charge
        = some 0 ∧
    (sanitize ch4Env richInput).1.cp2k_general_settings.cp2k_settings_main.multiplicity
        = some 3 ∧
    (sanitize ch4Env richInput).1.cp2k_general_settings.cp2k_settings_guess.uks
        = some "" := by
  have h := sanitize_shared_physical ch4Env richInput rfl rfl rfl rfl
  have hm := h.2.2.1 (by decide)
  exact ⟨h.1.1, h.1.2, h.2.1.1, hm.1.trans (by decide), hm.2.2.2⟩

/-- C6: the `cell_angles` field of both specifications is assigned Python
`None` regardless of which branch of the cell-parameters step ran, and when
an external cell-parameters file was supplied the `cell_parameters` field of
both specifications is also assigned `None`. -/
theorem sanitize_cell (env : Env) (u : UserInput) :
    (sanitize env u).1.cp2k_general_settings.cp2k_settings_main.cell_angles
        = some none ∧
    (sanitize env u).1.cp2k_general_settings.cp2k_settings_guess.cell_angles
        = some none ∧
    (u.cp2k_general_settings.file_cell_parameters ≠ none →
      (sanitize env u).1.cp2k_general_settings.cp2k_settings_main.cell_parameters
          = some none ∧
      (sanitize env u).1.cp2k_general_settings.cp2k_settings_guess.cell_parameters
          = some none) := by
  cases hn : u.nHOMO <;> cases hc : u.compute_orbitals <;>
    by_cases hf : u.cp2k_general_settings.file_cell_parameters = none <;>
    simp [sanitize, add_missing_keywords, add_executable, add_periodic,
      add_charge, add_mo_index_range, cell_par_value, hn, hc, hf]

/-- C6 witness: with an external cell-parameters file supplied, both
specifications end with `cell_parameters` and `cell_angles` assigned
`None`. -/
theorem sanitize_cell_witness :
    (sanitize ch4Env richInput).1.cp2k_general_settings.cp2k_settings_main.cell_angles
        = some none ∧
    (sanitize ch4Env richInput).1.cp2k_general_settings.cp2k_settings_guess.cell_angles
        = some none ∧
    (sanitize ch4Env richInput).1.cp2k_general_settings.cp2k_settings_main.cell_parameters
        = some none ∧
    (sanitize ch4Env richInput).1.cp2k_general_settings.cp2k_settings_guess.cell_parameters
        = some none := by
  have h := sanitize_cell ch4Env richInput
  have hc := h.2.2 (by decide)
  exact ⟨h.1, h.2.1, hc.1, hc.2⟩

/-- C7: when a basis directory is supplied, both specifications receive the
absolute potential-file path, and the basis-file list starts with the
MOLOPT file and carries the two additional ADMM files exactly when the key
`"xc_functional pbe"` is absent from the specification's `dft.xc`
sub-mapping (the string-match encoding of "the functional is not the
default pbe"). -/
theorem sanitize_basis_paths (env : Env) (u : UserInput) (pb : String)
    (h : u.cp2k_general_settings.path_basis = some pb) :
    (sanitize env u).1.cp2k_general_settings.cp2k_settings_main.potential_file_name
        = some (os_path_abspath env (os_path_join pb "GTH_POTENTIALS")) ∧
    (sanitize env u).1.cp2k_general_settings.cp2k_settings_guess.potential_file_name
        = some (os_path_abspath env (os_path_join pb "GTH_POTENTIALS")) ∧
    (sanitize env u).1.cp2k_general_settings.cp2k_settings_main.basis_set_file_name
        = some (os_path_abspath env (os_path_join pb "BASIS_MOLOPT") ::
            (if (u.cp2k_general_settings.cp2k_settings_main.xc.lookup
                  "xc_functional pbe") = none then
              [os_path_abspath env (os_path_join pb "BASIS_ADMM_MOLOPT"),
               os_path_abspath env (os_path_join pb "BASIS_ADMM")]
            else [])) ∧
    (sanitize env u).1.cp2k_general_settings.cp2k_settings_guess.basis_set_file_name
        = some (os_path_abspath env (os_path_join pb "BASIS_MOLOPT") ::
            (if (u.cp2k_general_settings.cp2k_settings_guess.xc.lookup
                  "xc_functional pbe") = none then
              [os_path_abspath env (os_path_join pb "BASIS_ADMM_MOLOPT"),
               os_path_abspath env (os_path_join pb "BASIS_ADMM")]
            else [])) := by
  cases hn : u.nHOMO <;> cases hc : u.compute_orbitals <;>
    by_cases hx1 : (u.cp2k_general_settings.cp2k_settings_main.xc.lookup
      "xc_functional pbe") = none <;>
    by_cases hx2 : (u.cp2k_general_settings.cp2k_settings_guess.xc.lookup
      "xc_functional pbe") = none <;>
    simp [sanitize, add_missing_keywords, add_executable, add_periodic,
      add_charge, add_mo_index_range, basis_files, h, hn, hc, hx1, hx2]

/-- C7 witness: with basis directory `/data/basis` and no
`"xc_functional pbe"` key, both specifications receive the absolute
potential path and the three-element basis-file list including the two ADMM
files. -/
theorem sanitize_basis_paths_witness :
    (sanitize ch4Env richInput).1.cp2k_general_settings.cp2k_settings_main.potential_file_name
        = some "/data/basis/GTH_POTENTIALS" ∧
    (sanitize ch4Env richInput).1.cp2k_general_settings.cp2k_settings_guess.potential_file_name
        = some "/data/basis/GTH_POTENTIALS" ∧
    (sanitize ch4Env richInput).1.cp2k_general_settings.cp2k_settings_main.basis_set_file_name
        = some ["/data/basis/BASIS_MOLOPT", "/data/basis/BASIS_ADMM_MOLOPT",
                "/data/basis/BASIS_ADMM"] ∧
    (sanitize ch4Env richInput).1.cp2k_general_settings.cp2k_settings_guess.basis_set_file_name
        = some ["/data/basis/BASIS_MOLOPT", "/data/basis/BASIS_ADMM_MOLOPT",
                "/data/basis/BASIS_ADMM"] := by
  have h := sanitize_basis_paths ch4Env richInput "/data/basis" rfl
  exact ⟨h.1.trans (by decide), h.2.1.trans (by decide),
    h.2.2.1.trans (by decide), h.2.2.2.trans (by decide)⟩

/-- C8: when the electron count is odd, HOMO derivation emits the unpaired
electron warning and still returns the ceiling of half the electron count
(the embedding is a total function: no exception path exists), and the
warning propagates through the sanitization pipeline when `nHOMO` is
derived. -/
theorem compute_homo_odd_warning (env : Env) (u : UserInput)
    (h : electron_count env u % 2 ≠ 0) :
    (compute_homo_index env u).2 = [unpaired_warning] ∧
    (compute_homo_index env u).1 = ⌈(electron_count env u : ℚ) / 2⌉ ∧
    (u.nHOMO = none → (sanitize env u).2 = [unpaired_warning]) := by
  refine ⟨?_, ?_, fun hn => ?_⟩
  · simp [compute_homo_index, h]
  · simp [compute_homo_index, ceil_half_eq]
  · cases hc : u.compute_orbitals <;>
      simp [sanitize, add_missing_keywords, compute_homo_index, h, hn, hc]

/-- C8 witness: the methane cation has electron count 7; derivation warns
and returns `nHOMO = 4`, and sanitization surfaces the warning. -/
theorem compute_homo_odd_warning_witness :
    electron_count ch4Env ch4CationInput = 7 ∧
    (compute_homo_index ch4Env ch4CationInput).2 = [unpaired_warning] ∧
    (compute_homo_index ch4Env ch4CationInput).1 = 4 ∧
    (sanitize ch4Env ch4CationInput).2 = [unpaired_warning] := by
  have h := compute_homo_odd_warning ch4Env ch4CationInput (by decide)
  exact ⟨rfl, h.1, h.2.1.trans (by rw [ceil_half_eq]; decide), h.2.2 rfl⟩

/-- C9: after sanitization, both job specifications carry an `executable`
key equal to the shared `executable` scalar of the general settings. -/
theorem sanitize_executable_both (env : Env) (u : UserInput) :
    (sanitize env u).1.cp2k_general_settings.cp2k_settings_main.executable
        = some u.cp2k_general_settings.executable ∧
    (sanitize env u).1.cp2k_general_settings.cp2k_settings_guess.executable
        = some u.cp2k_general_settings.executable := by
  cases hn : u.nHOMO <;> cases hc : u.compute_orbitals <;>
    simp [sanitize, add_missing_keywords, add_executable, add_periodic,
      add_charge, add_mo_index_range, hn, hc]

/-! ## Multipole provider claims -/

/-- C3: if the key built from (project name, 'multipole', point index, kind)
is already present in the store, the persisted matrix is returned without
invoking the integral computation; and two successive requests for the same
key return identical matrices, the second never invoking the computation. -/
theorem get_multipole_matrix_cached (env : IntegralEnv) (i : Nat) (mol : Mol)
    (store : Store) (config : MultipoleConfig) (multipole : String)
    (m : NacMatrix)
    (h : store.lookup (multipole_path config i multipole) = some m) :
    (get_multipole_matrix env i mol store config multipole).1 = m ∧
    (get_multipole_matrix env i mol store config multipole).2.2 = false ∧
    ∀ s : Store,
      (get_multipole_matrix env i mol
          (get_multipole_matrix env i mol s config multipole).2.1
          config multipole).1
        = (get_multipole_matrix env i mol s config multipole).1 ∧
      (get_multipole_matrix env i mol
          (get_multipole_matrix env i mol s config multipole).2.1
          config multipole).2.2 = false := by
  refine ⟨?_, ?_, ?_⟩
  · simp [get_multipole_matrix, search_multipole_in_hdf5, search_data_in_hdf5,
      retrieve_hdf5_data, h]
  · simp [get_multipole_matrix, search_multipole_in_hdf5, search_data_in_hdf5,
      retrieve_hdf5_data, h]
  · intro s
    rcases hs : s.lookup (multipole_path config i multipole) with _ | m2 <;>
      simp [get_multipole_matrix, search_multipole_in_hdf5,
        search_data_in_hdf5, retrieve_hdf5_data, store_arrays_in_hdf5, hs,
        List.lookup]

/-- C3 witness: with the key for point 0 of the dipole already bound in the
store, the provider returns the stored matrix without invoking the integral
routine, and repeated requests agree. -/
theorem get_multipole_matrix_cached_witness :
    (get_multipole_matrix ⟨fun _ _ _ => [[1]]⟩ 0 []
        [(multipole_path ⟨"proj", "f.hdf5"⟩ 0 "dipole", [[2]])]
        ⟨"proj", "f.hdf5"⟩ "dipole").1 = [[2]] ∧
    (get_multipole_matrix ⟨fun _ _ _ => [[1]]⟩ 0 []
        [(multipole_path ⟨"proj", "f.hdf5"⟩ 0 "dipole", [[2]])]
        ⟨"proj", "f.hdf5"⟩ "dipole").2.2 = false := by
  have h := get_multipole_matrix_cached ⟨fun _ _ _ => [[1]]⟩ 0 []
    [(multipole_path ⟨"proj", "f.hdf5"⟩ 0 "dipole", [[2]])]
    ⟨"proj", "f.hdf5"⟩ "dipole" [[2]] (by simp [List.lookup])
  exact ⟨h.1, h.2.1⟩

/-- C10: every call writes the returned matrix to the store under its key,
unconditionally — the resulting store is exactly the unconditional write of
the returned matrix, including on cache hits. -/
theorem get_multipole_matrix_always_stores (env : IntegralEnv) (i : Nat)
    (mol : Mol) (store : Store) (config : MultipoleConfig)
    (multipole : String) :
    (get_multipole_matrix env i mol store config multipole).2.1
      = store_arrays_in_hdf5 store (multipole_path config i multipole)
          (get_multipole_matrix env i mol store config multipole).1 := by
  unfold get_multipole_matrix
  rcases hs : search_multipole_in_hdf5 store (multipole_path config i multipole)
    with _ | m <;> simp [hs]

end NonAdiabaticCoupling
